import Mathlib

/-!
Verification of the sports-scribe AI backend (python) against its
natural-language specification.

The development shallowly embeds the Python code of
`ai-backend/scriber_agents/{pipeline,data_collector,researcher,writer}.py`
and `ai-backend/main.py` into Lean.  Python values (the JSON-shaped
dictionaries passed between the agents) are modelled by the inductive type
`PyVal`; Python code that can raise is modelled in `Except String`
(the error carries the exception text), and `try/except` blocks are modelled
by explicit matches on the `Except` result.  Calls that leave the process
(the LLM runner, the sports-data HTTP transport) are modelled as explicit
outcome parameters, so every theorem quantifies over every possible
behaviour of the external collaborators.
-/

/-- A Python value as exchanged between the agents: `None`, booleans,
integers, strings, lists and (insertion-ordered) dictionaries. -/
inductive PyVal : Type where
  | pnone : PyVal
  | pbool : Bool → PyVal
  | pint : Int → PyVal
  | pstr : String → PyVal
  | plist : List PyVal → PyVal
  | pdict : List (PyVal × PyVal) → PyVal
deriving Repr, Inhabited

open PyVal

/-- Python truthiness (`bool(x)`): `None`, `False`, `0`, `""`, `[]`, `{}`
are falsy, everything else truthy. -/
def pyTruthy : PyVal → Bool
  | pnone => false
  | pbool b => b
  | pint n => n != 0
  | pstr s => s != ""
  | plist xs => !xs.isEmpty
  | pdict xs => !xs.isEmpty

mutual
/-- Python `==`.  Scalars compare with the numeric bool/int coercion
(`True == 1`); lists compare pointwise.  Dictionaries are compared
structurally (entry order included); Python compares dictionaries
unordered, but none of the embedded code ever compares two dictionaries
built with differing insertion orders, so the difference is unobservable
here. -/
def pyEq : PyVal → PyVal → Bool
  | pnone, pnone => true
  | pbool a, pbool b => a == b
  | pbool a, pint n => (if a then (1 : Int) else 0) == n
  | pint n, pbool a => n == (if a then (1 : Int) else 0)
  | pint a, pint b => a == b
  | pstr a, pstr b => a == b
  | plist xs, plist ys => pyEqList xs ys
  | pdict xs, pdict ys => pyEqDict xs ys
  | _, _ => false

def pyEqList : List PyVal → List PyVal → Bool
  | [], [] => true
  | x :: xs, y :: ys => pyEq x y && pyEqList xs ys
  | _, _ => false

def pyEqDict : List (PyVal × PyVal) → List (PyVal × PyVal) → Bool
  | [], [] => true
  | (k, v) :: xs, (k', v') :: ys => pyEq k k' && pyEq v v' && pyEqDict xs ys
  | _, _ => false
end

mutual
/-- Structural boolean equality on `PyVal` (used only to state theorems;
the embedded code itself compares with `pyEq`). -/
def pyBeq : PyVal → PyVal → Bool
  | pnone, pnone => true
  | pbool a, pbool b => a == b
  | pint a, pint b => a == b
  | pstr a, pstr b => a == b
  | plist xs, plist ys => pyBeqList xs ys
  | pdict xs, pdict ys => pyBeqDict xs ys
  | _, _ => false

def pyBeqList : List PyVal → List PyVal → Bool
  | [], [] => true
  | x :: xs, y :: ys => pyBeq x y && pyBeqList xs ys
  | _, _ => false

def pyBeqDict : List (PyVal × PyVal) → List (PyVal × PyVal) → Bool
  | [], [] => true
  | (k, v) :: xs, (k', v') :: ys => pyBeq k k' && pyBeq v v' && pyBeqDict xs ys
  | _, _ => false
end

/-- Key lookup in the association list backing a Python dictionary
(first matching entry, Python `==` on keys). -/
def dictLookup (xs : List (PyVal × PyVal)) (k : PyVal) : Option PyVal :=
  match xs with
  | [] => none
  | (k', v) :: rest => if pyEq k' k then some v else dictLookup rest k

/-- Python dictionary assignment `d[k] = v`: replaces the value in place when
the key is present (keeping its position), otherwise appends the new entry. -/
def dictAssign (xs : List (PyVal × PyVal)) (k v : PyVal) : List (PyVal × PyVal) :=
  match xs with
  | [] => [(k, v)]
  | (k', w) :: rest =>
      if pyEq k' k then (k', v) :: rest else (k', w) :: dictAssign rest k v

/-- Only hashable values may be used as dictionary keys in Python;
of the values modelled here, lists and dictionaries are unhashable. -/
def pyHashable : PyVal → Bool
  | plist _ => false
  | pdict _ => false
  | _ => true

/-- Python `obj.get(key, default)`: defined on dictionaries, an
`AttributeError` on anything else. -/
def pyGet (obj : PyVal) (key : PyVal) (dflt : PyVal) : Except String PyVal :=
  match obj with
  | pdict xs => .ok ((dictLookup xs key).getD dflt)
  | _ => .error "AttributeError: object has no attribute get"

/-- Python `obj.get(key, default)` with a string key. -/
def pyGetD (obj : PyVal) (key : String) (dflt : PyVal) : Except String PyVal :=
  pyGet obj (pstr key) dflt

/-- Python subscript `obj[k]`: dictionary key lookup (`KeyError` when
absent), list indexing with negative-index support (`IndexError` out of
range), `TypeError` otherwise. -/
def pySubscript (obj : PyVal) (k : PyVal) : Except String PyVal :=
  match obj with
  | pdict xs =>
      match dictLookup xs k with
      | some v => .ok v
      | none => .error "KeyError"
  | plist xs =>
      match k with
      | pint n =>
          let i : Int := if n < 0 then n + xs.length else n
          if h : 0 ≤ i ∧ i.toNat < xs.length then .ok (xs.get ⟨i.toNat, h.2⟩)
          else .error "IndexError: list index out of range"
      | pbool b =>
          let i : Nat := if b then 1 else 0
          if h : i < xs.length then .ok (xs.get ⟨i, h⟩)
          else .error "IndexError: list index out of range"
      | _ => .error "TypeError: list indices must be integers or slices"
  | _ => .error "TypeError: object is not subscriptable"

/-- Python subscript `obj[0]`. -/
def pySub0 (obj : PyVal) : Except String PyVal :=
  pySubscript obj (pint 0)

/-- Python item assignment `obj[k] = v` (dictionaries only in the embedded
code); raises `TypeError` for unhashable keys or non-dictionaries. -/
def pySetItem (obj k v : PyVal) : Except String PyVal :=
  match obj with
  | pdict xs =>
      if pyHashable k then .ok (pdict (dictAssign xs k v))
      else .error "TypeError: unhashable type"
  | _ => .error "TypeError: object does not support item assignment"

/-- Python nested item assignment `obj[k1][k2] = v`. -/
def pySetItem2 (obj k1 k2 v : PyVal) : Except String PyVal := do
  let sub ← pySubscript obj k1
  let sub' ← pySetItem sub k2 v
  pySetItem obj k1 sub'

/-- Python `for x in obj`: lists iterate their elements, strings their
characters, dictionaries their keys; other values raise `TypeError`. -/
def pyIter (obj : PyVal) : Except String (List PyVal) :=
  match obj with
  | plist xs => .ok xs
  | pstr s => .ok (s.toList.map (fun c => pstr (String.singleton c)))
  | pdict xs => .ok (xs.map (fun p => p.1))
  | _ => .error "TypeError: object is not iterable"

/-- Python `k in obj`: key containment for dictionaries (`TypeError` for
unhashable keys), `==`-scan for lists, `TypeError` otherwise. -/
def pyContains (obj k : PyVal) : Except String Bool :=
  match obj with
  | pdict xs =>
      if pyHashable k then .ok (dictLookup xs k).isSome
      else .error "TypeError: unhashable type"
  | plist xs => .ok (xs.any (fun x => pyEq k x))
  | _ => .error "TypeError: argument is not a container"

/-- Python `d.values()` (as materialised by `list(d.values())`). -/
def pyValues (obj : PyVal) : Except String (List PyVal) :=
  match obj with
  | pdict xs => .ok (xs.map (fun p => p.2))
  | _ => .error "AttributeError: object has no attribute values"

/-- Python `d.items()`. -/
def pyItems (obj : PyVal) : Except String (List (PyVal × PyVal)) :=
  match obj with
  | pdict xs => .ok xs
  | _ => .error "AttributeError: object has no attribute items"

/-- Python `d.copy()` (shallow dictionary copy; under the value semantics of
`PyVal` that is the value itself). -/
def pyCopyMethod (obj : PyVal) : Except String PyVal :=
  match obj with
  | pdict xs => .ok (pdict xs)
  | _ => .error "AttributeError: object has no attribute copy"

/-- Python slicing `obj[:n]` (lists and strings; dictionaries and scalars
raise `TypeError`, slices being unhashable). -/
def pySliceTo (obj : PyVal) (n : Nat) : Except String PyVal :=
  match obj with
  | plist xs => .ok (plist (xs.take n))
  | pstr s => .ok (pstr (String.mk (s.toList.take n)))
  | _ => .error "TypeError: object is not subscriptable"

/-- Python `lst.append(x)` (returns the extended list; the embedded code
always writes the result back to where the list was read from). -/
def pyAppend (obj x : PyVal) : Except String PyVal :=
  match obj with
  | plist xs => .ok (plist (xs ++ [x]))
  | _ => .error "AttributeError: object has no attribute append"

mutual
/-- Python `repr`, as far as the embedded values need it. -/
def pyRepr : PyVal → String
  | pnone => "None"
  | pbool b => if b then "True" else "False"
  | pint n => toString n
  | pstr s => String.singleton (Char.ofNat 39) ++ s ++ String.singleton (Char.ofNat 39)
  | plist xs => "[" ++ pyReprList xs ++ "]"
  | pdict xs =>
      String.singleton (Char.ofNat 123) ++ pyReprDict xs ++ String.singleton (Char.ofNat 125)

def pyReprList : List PyVal → String
  | [] => ""
  | [x] => pyRepr x
  | x :: xs => pyRepr x ++ ", " ++ pyReprList xs

def pyReprDict : List (PyVal × PyVal) → String
  | [] => ""
  | [(k, v)] => pyRepr k ++ ": " ++ pyRepr v
  | (k, v) :: xs => pyRepr k ++ ": " ++ pyRepr v ++ ", " ++ pyReprDict xs
end

/-- Python `str(x)`: the string itself for strings, `repr` otherwise. -/
def pyStr : PyVal → String
  | pstr s => s
  | v => pyRepr v

/-- The `{"error": msg}` sentinel map the extraction helpers return. -/
def errDict (msg : String) : PyVal :=
  pdict [(pstr "error", pstr msg)]

mutual
/-- A deep copy of a Python value (`copy.deepcopy`); used to state that the
extraction helpers depend only on the value of their input. -/
def pyDeepCopy : PyVal → PyVal
  | pnone => pnone
  | pbool b => pbool b
  | pint n => pint n
  | pstr s => pstr s
  | plist xs => plist (pyDeepCopyList xs)
  | pdict xs => pdict (pyDeepCopyDict xs)

def pyDeepCopyList : List PyVal → List PyVal
  | [] => []
  | x :: xs => pyDeepCopy x :: pyDeepCopyList xs

def pyDeepCopyDict : List (PyVal × PyVal) → List (PyVal × PyVal)
  | [] => []
  | (k, v) :: xs => (pyDeepCopy k, pyDeepCopy v) :: pyDeepCopyDict xs
end

mutual
theorem pyDeepCopy_id : ∀ v : PyVal, pyDeepCopy v = v
  | pnone => rfl
  | pbool _ => rfl
  | pint _ => rfl
  | pstr _ => rfl
  | plist xs => by rw [pyDeepCopy, pyDeepCopyList_id xs]
  | pdict xs => by rw [pyDeepCopy, pyDeepCopyDict_id xs]

theorem pyDeepCopyList_id : ∀ xs : List PyVal, pyDeepCopyList xs = xs
  | [] => rfl
  | x :: xs => by rw [pyDeepCopyList, pyDeepCopy_id x, pyDeepCopyList_id xs]

theorem pyDeepCopyDict_id : ∀ xs : List (PyVal × PyVal), pyDeepCopyDict xs = xs
  | [] => rfl
  | (k, v) :: xs => by
      rw [pyDeepCopyDict, pyDeepCopy_id k, pyDeepCopy_id v, pyDeepCopyDict_id xs]
end

theorem dictLookup_assign_self (xs : List (PyVal × PyVal)) (k v : PyVal)
    (hk : pyEq k k = true) : dictLookup (dictAssign xs k v) k = some v := by
  induction xs with
  | nil => simp [dictAssign, dictLookup, hk]
  | cons hd tl ih =>
      obtain ⟨k', w⟩ := hd
      by_cases h : pyEq k' k = true
      · simp [dictAssign, dictLookup, h]
      · simp [dictAssign, dictLookup, h, ih]

theorem dictLookup_assign_str_ne (xs : List (PyVal × PyVal)) (a b : String)
    (v : PyVal) (hne : (a == b) = false) :
    dictLookup (dictAssign xs (pstr a) v) (pstr b) = dictLookup xs (pstr b) := by
  induction xs with
  | nil => simp [dictAssign, dictLookup, pyEq, hne]
  | cons hd tl ih =>
      obtain ⟨k0, w⟩ := hd
      by_cases h : pyEq k0 (pstr a) = true
      · cases k0 <;> simp [pyEq] at h
        next s =>
          subst h
          simp [dictAssign, dictLookup, pyEq, hne]
      · simp [dictAssign, dictLookup, h, ih]

/-!
Data Source Adapter and Data Collector Agent
(`ai-backend/scriber_agents/data_collector.py`).

The tool functions `get_game_data` / `get_team_data` open an HTTP
connection, read the response body and return the decoded text; any
exception is caught and an error-message string is returned instead.  The
transport layer is modelled by `Transport`: either an HTTP response with a
status code and a body, or a raised connection/read error.
-/

/-- Outcome of the HTTP transport underneath one adapter call. -/
inductive Transport : Type where
  | response (status : Nat) (body : String)
  | failed (msg : String)
deriving Repr

/-- The error string built by the `except` clause of the adapter,
`"Error fetching Rapid API football {kind} data: {e}"`. -/
def fetchErrString (kind msg : String) : String :=
  "Error fetching Rapid API football " ++ kind ++ " data: " ++ msg

/-- `get_game_data` (data_collector.py lines 111-141): returns the decoded
response body, whatever the HTTP status; when the API key is unset/empty a
`ValueError` is raised and caught, and when the transport raises, the
exception is caught — both produce the prefixed error string.  The HTTP
status code is never inspected. -/
def get_game_data (apiKey : Option String) (t : Transport) : String :=
  match apiKey with
  | none => fetchErrString "game" "RAPIDAPI_KEY not found."
  | some k =>
      if k = "" then fetchErrString "game" "RAPIDAPI_KEY not found."
      else
        match t with
        | .failed m => fetchErrString "game" m
        | .response _ body => body

/-- `get_team_data` (data_collector.py lines 144-170): same shape as
`get_game_data`; note the source raises `ValueError("RAPID_API_KEY not
found.")` (different spelling) for a missing key. -/
def get_team_data (apiKey : Option String) (t : Transport) : String :=
  match apiKey with
  | none => fetchErrString "team" "RAPID_API_KEY not found."
  | some k =>
      if k = "" then fetchErrString "team" "RAPID_API_KEY not found."
      else
        match t with
        | .failed m => fetchErrString "team" m
        | .response _ body => body

mutual
/-- JSON serialisation of a `PyVal` (used only to build concrete
counterexample bodies; the embedded values contain no characters that
need escaping beyond quote and backslash). -/
def pyToJson : PyVal → String
  | pnone => "null"
  | pbool b => if b then "true" else "false"
  | pint n => toString n
  | pstr s =>
      "\"" ++ ((s.replace "\\" "\\\\").replace "\"" "\\\"") ++ "\""
  | plist xs => "[" ++ pyToJsonList xs ++ "]"
  | pdict xs =>
      String.singleton (Char.ofNat 123) ++ pyToJsonDict xs ++
        String.singleton (Char.ofNat 125)

def pyToJsonList : List PyVal → String
  | [] => ""
  | [x] => pyToJson x
  | x :: xs => pyToJson x ++ ", " ++ pyToJsonList xs

def pyToJsonDict : List (PyVal × PyVal) → String
  | [] => ""
  | [(k, v)] => pyToJson k ++ ": " ++ pyToJson v
  | (k, v) :: xs => pyToJson k ++ ": " ++ pyToJson v ++ ", " ++ pyToJsonDict xs
end

/-- Outcome of `Runner.run(self.agent, ...)` inside the Data Collector:
either the call raised, or it finished with a `final_output` value
(a string to be JSON-parsed, or an already-structured object). -/
inductive RunnerResult : Type where
  | raised (msg : String)
  | finished (finalOutput : PyVal)
deriving Repr

/-- `DataCollectorAgent.collect_game_data` (data_collector.py lines
255-277).  The body runs under `try`, and the `except` clause logs and
*re-raises*, so every failure propagates to the caller: a raised runner
call, an empty/falsy `final_output` (the explicit `ValueError`), and a
JSON parse failure of a string output.  A structured (non-string) output
is returned as-is; no aggregate envelope is built around it.
`jsonLoads` abstracts `json.loads`: the parse result or the parse
exception for each input string. -/
def collect_game_data (jsonLoads : String → Except String PyVal)
    (r : RunnerResult) : Except String PyVal :=
  match r with
  | .raised m => .error m
  | .finished out =>
      if !pyTruthy out then
        .error "ValueError: No game data received from collector"
      else
        match out with
        | pstr s => jsonLoads s
        | v => .ok v

/-!
Extraction helpers (`ai-backend/scriber_agents/pipeline.py` lines 377-607):
`AgentPipeline.extract_team_info`, `AgentPipeline.extract_player_info` and
`AgentPipeline._identify_key_players`.  Each public helper wraps its whole
body in `try/except Exception`, returning `{"error": ...}` on any
exception; the bodies below are the faithful translations of the `try`
blocks (logging statements, which only read already-validated data, are
omitted), and the `_except` wrappers are the `except` clauses.
-/

/-- The `try` body of `AgentPipeline.extract_team_info`. -/
def extract_team_info_body (raw : PyVal) : Except String PyVal := do
  let response_list ← pyGetD raw "response" (plist [])
  if !pyTruthy response_list then
    return errDict "No response data available"
  let fixture_data ← pySub0 response_list
  let teams ← pyGetD fixture_data "teams" (pdict [])
  let home_team ← pyGetD teams "home" (pdict [])
  let home_team_info : PyVal := pdict [
    (pstr "id", ← pyGetD home_team "id" pnone),
    (pstr "name", ← pyGetD home_team "name" pnone),
    (pstr "logo", ← pyGetD home_team "logo" pnone),
    (pstr "winner", ← pyGetD home_team "winner" pnone)]
  let away_team ← pyGetD teams "away" (pdict [])
  let away_team_info : PyVal := pdict [
    (pstr "id", ← pyGetD away_team "id" pnone),
    (pstr "name", ← pyGetD away_team "name" pnone),
    (pstr "logo", ← pyGetD away_team "logo" pnone),
    (pstr "winner", ← pyGetD away_team "winner" pnone)]
  let league ← pyGetD fixture_data "league" (pdict [])
  let league_info : PyVal := pdict [
    (pstr "id", ← pyGetD league "id" pnone),
    (pstr "name", ← pyGetD league "name" pnone),
    (pstr "country", ← pyGetD league "country" pnone),
    (pstr "logo", ← pyGetD league "logo" pnone),
    (pstr "flag", ← pyGetD league "flag" pnone),
    (pstr "season", ← pyGetD league "season" pnone),
    (pstr "round", ← pyGetD league "round" pnone)]
  let lineups ← pyGetD fixture_data "lineups" (plist [])
  let lineupList ← pyIter lineups
  let hlal ← lineupList.foldlM (fun (st : PyVal × PyVal) lineup => do
      let team ← pyGetD lineup "team" (pdict [])
      let team_id ← pyGetD team "id" pnone
      let hid ← pySubscript home_team_info (pstr "id")
      if pyEq team_id hid then do
        let coach ← pyGetD lineup "coach" (pdict [])
        let hl : PyVal := pdict [
          (pstr "formation", ← pyGetD lineup "formation" pnone),
          (pstr "coach", ← pyGetD coach "name" pnone),
          (pstr "startXI", ← pyGetD lineup "startXI" (plist [])),
          (pstr "substitutes", ← pyGetD lineup "substitutes" (plist []))]
        pure (hl, st.2)
      else do
        let aid ← pySubscript away_team_info (pstr "id")
        if pyEq team_id aid then do
          let coach ← pyGetD lineup "coach" (pdict [])
          let al : PyVal := pdict [
            (pstr "formation", ← pyGetD lineup "formation" pnone),
            (pstr "coach", ← pyGetD coach "name" pnone),
            (pstr "startXI", ← pyGetD lineup "startXI" (plist [])),
            (pstr "substitutes", ← pyGetD lineup "substitutes" (plist []))]
          pure (st.1, al)
        else
          pure st) ((pnone, pnone) : PyVal × PyVal)
  return pdict [
    (pstr "home_team", home_team_info),
    (pstr "away_team", away_team_info),
    (pstr "league", league_info),
    (pstr "home_lineup", hlal.1),
    (pstr "away_lineup", hlal.2)]

/-- `AgentPipeline.extract_team_info` as observed by its caller: the body
under `try`, with `except Exception` turning any exception into an
`{"error": ...}` result (so the call itself never raises). -/
def extract_team_info_except (raw : PyVal) : Except String PyVal :=
  match extract_team_info_body raw with
  | .ok v => .ok v
  | .error e => .ok (errDict ("Failed to extract team info: " ++ e))

/-- `AgentPipeline.extract_team_info` as a plain value. -/
def extract_team_info (raw : PyVal) : PyVal :=
  match extract_team_info_except raw with
  | .ok v => v
  | .error _ => pnone

/-- `AgentPipeline._identify_key_players`: scans the match events for
`Goal`/`Card` events and collects a copy of each scoring/carded player,
tagged with a `key_achievement` record. -/
def identify_key_players (all_players events : PyVal) : Except String PyVal := do
  let evList ← pyIter events
  let kp ← evList.foldlM (fun (kp : List PyVal) event => do
      let etype ← pyGetD event "type" pnone
      if pyEq etype (pstr "Goal") || pyEq etype (pstr "Card") then do
        let player ← pyGetD event "player" (pdict [])
        let player_id ← pyGetD player "id" pnone
        if pyTruthy player_id then do
          let present ← pyContains all_players player_id
          if present then do
            let pd0 ← pySubscript all_players player_id
            let pd1 ← pyCopyMethod pd0
            let tm ← pyGetD event "time" (pdict [])
            let achievement : PyVal := pdict [
              (pstr "type", ← pyGetD event "type" pnone),
              (pstr "detail", ← pyGetD event "detail" pnone),
              (pstr "time", ← pyGetD tm "elapsed" pnone)]
            let pd2 ← pySetItem pd1 (pstr "key_achievement") achievement
            pure (kp ++ [pd2])
          else pure kp
        else pure kp
      else pure kp) ([] : List PyVal)
  return plist kp

/-- The `try` body of `AgentPipeline.extract_player_info`. -/
def extract_player_info_body (raw : PyVal) : Except String PyVal := do
  let response_list ← pyGetD raw "response" (plist [])
  if !pyTruthy response_list then
    return errDict "No response data available"
  let fixture_data ← pySub0 response_list
  let events ← pyGetD fixture_data "events" (plist [])
  let evList ← pyIter events
  let player_events ← evList.foldlM (fun (pe : PyVal) event => do
      let player ← pyGetD event "player" (pdict [])
      let player_id ← pyGetD player "id" pnone
      let player_name ← pyGetD player "name" pnone
      if pyTruthy player_id && pyTruthy player_name then do
        let present ← pyContains pe player_id
        let pe ← if !present then do
            let team1 ← pyGetD event "team" (pdict [])
            let tname ← pyGetD team1 "name" pnone
            let team2 ← pyGetD event "team" (pdict [])
            let tid ← pyGetD team2 "id" pnone
            pySetItem pe player_id (pdict [
              (pstr "id", player_id),
              (pstr "name", player_name),
              (pstr "team", tname),
              (pstr "team_id", tid),
              (pstr "events", plist [])])
          else pure pe
        let assistCond ← pyGetD event "assist" pnone
        let assistName ← if pyTruthy assistCond then do
            let a ← pyGetD event "assist" (pdict [])
            pyGetD a "name" pnone
          else pure pnone
        let tm ← pyGetD event "time" (pdict [])
        let record : PyVal := pdict [
          (pstr "type", ← pyGetD event "type" pnone),
          (pstr "detail", ← pyGetD event "detail" pnone),
          (pstr "time", ← pyGetD tm "elapsed" pnone),
          (pstr "assist", assistName)]
        let cur ← pySubscript pe player_id
        let evs ← pySubscript cur (pstr "events")
        let evs' ← pyAppend evs record
        let cur' ← pySetItem cur (pstr "events") evs'
        pySetItem pe player_id cur'
      else pure pe) (pdict [])
  let lineups ← pyGetD fixture_data "lineups" (plist [])
  let lineupList ← pyIter lineups
  let all_players ← lineupList.foldlM (fun (ap : PyVal) lineup => do
      let t1 ← pyGetD lineup "team" (pdict [])
      let team_name ← pyGetD t1 "name" pnone
      let t2 ← pyGetD lineup "team" (pdict [])
      let team_id ← pyGetD t2 "id" pnone
      let startXI ← pyGetD lineup "startXI" (plist [])
      let startList ← pyIter startXI
      let ap ← startList.foldlM (fun (ap : PyVal) player_data => do
          let player ← pyGetD player_data "player" (pdict [])
          let player_id ← pyGetD player "id" pnone
          if pyTruthy player_id then
            pySetItem ap player_id (pdict [
              (pstr "id", player_id),
              (pstr "name", ← pyGetD player "name" pnone),
              (pstr "number", ← pyGetD player "number" pnone),
              (pstr "position", ← pyGetD player "pos" pnone),
              (pstr "team", team_name),
              (pstr "team_id", team_id),
              (pstr "status", pstr "started"),
              (pstr "formation_position", ← pyGetD player "grid" pnone)])
          else pure ap) ap
      let subs ← pyGetD lineup "substitutes" (plist [])
      let subsList ← pyIter subs
      subsList.foldlM (fun (ap : PyVal) player_data => do
          let player ← pyGetD player_data "player" (pdict [])
          let player_id ← pyGetD player "id" pnone
          if pyTruthy player_id then
            pySetItem ap player_id (pdict [
              (pstr "id", player_id),
              (pstr "name", ← pyGetD player "name" pnone),
              (pstr "number", ← pyGetD player "number" pnone),
              (pstr "position", ← pyGetD player "pos" pnone),
              (pstr "team", team_name),
              (pstr "team_id", team_id),
              (pstr "status", pstr "substitute"),
              (pstr "formation_position", pnone)])
          else pure ap) ap) (pdict [])
  let apItems ← pyItems all_players
  let all_players ← apItems.foldlM (fun (ap : PyVal) kv => do
      let present ← pyContains player_events kv.1
      let matchEvents ← if present then do
          let entry ← pySubscript player_events kv.1
          pySubscript entry (pstr "events")
        else pure (plist [])
      let pdata' ← pySetItem kv.2 (pstr "match_events") matchEvents
      pySetItem ap kv.1 pdata') all_players
  let teams1 ← pyGetD fixture_data "teams" (pdict [])
  let homeT ← pyGetD teams1 "home" (pdict [])
  let home_team_id ← pyGetD homeT "id" pnone
  let teams2 ← pyGetD fixture_data "teams" (pdict [])
  let awayT ← pyGetD teams2 "away" (pdict [])
  let away_team_id ← pyGetD awayT "id" pnone
  let apItems2 ← pyItems all_players
  let home_players ← apItems2.foldlM
      (fun (acc : List (PyVal × PyVal)) kv => do
        let tid ← pyGetD kv.2 "team_id" pnone
        pure (if pyEq tid home_team_id then acc ++ [kv] else acc)) []
  let apItems3 ← pyItems all_players
  let away_players ← apItems3.foldlM
      (fun (acc : List (PyVal × PyVal)) kv => do
        let tid ← pyGetD kv.2 "team_id" pnone
        pure (if pyEq tid away_team_id then acc ++ [kv] else acc)) []
  let key_players ← identify_key_players all_players events
  return pdict [
    (pstr "home_players", pdict home_players),
    (pstr "away_players", pdict away_players),
    (pstr "all_players", all_players),
    (pstr "key_players", key_players)]

/-- `AgentPipeline.extract_player_info` as observed by its caller. -/
def extract_player_info_except (raw : PyVal) : Except String PyVal :=
  match extract_player_info_body raw with
  | .ok v => .ok v
  | .error e => .ok (errDict ("Failed to extract player info: " ++ e))

/-- `AgentPipeline.extract_player_info` as a plain value. -/
def extract_player_info (raw : PyVal) : PyVal :=
  match extract_player_info_except raw with
  | .ok v => v
  | .error _ => pnone

/-!
Enhanced team/player collection
(`ai-backend/scriber_agents/pipeline.py` lines 609-747).

`collect_enhanced_team_data` consults `collect_team_data` for each team id
(modelled by outcome parameters, since those calls delegate to the LLM
runner); `collect_enhanced_player_data` calls
`self.collector.collect_player_data(str(player_id))`, but
`DataCollectorAgent.collect_player_data` (data_collector.py line 303)
requires a second positional `season` argument, so Python raises a
`TypeError` at argument-binding time, before any data is fetched.
-/

/-- Exception text of the `TypeError` raised when
`collect_player_data` is called without its required `season` argument. -/
def missing_season_msg : String :=
  "collect_player_data() missing 1 required positional argument: season"

/-- The call `collector.collect_player_data(str(player_id))` as written at
pipeline.py lines 690, 718 and 732: argument binding fails, so the call
raises `TypeError` for every player id, unconditionally. -/
def collect_player_data_call (pid : String) : Except String PyVal :=
  .error missing_season_msg

/-- The `try` body of `AgentPipeline.collect_enhanced_team_data`;
`homeOutcome`/`awayOutcome` are the outcomes (value or exception) of the
two `collect_team_data` calls. -/
def collect_enhanced_team_data_body (homeOutcome awayOutcome : Except String PyVal)
    (team_info : PyVal) : Except String PyVal := do
  let enhanced : PyVal := pdict [
    (pstr "home_team", ← pyGetD team_info "home_team" (pdict [])),
    (pstr "away_team", ← pyGetD team_info "away_team" (pdict [])),
    (pstr "league", ← pyGetD team_info "league" (pdict [])),
    (pstr "home_lineup", ← pyGetD team_info "home_lineup" (pdict [])),
    (pstr "away_lineup", ← pyGetD team_info "away_lineup" (pdict [])),
    (pstr "enhanced_data", pdict [])]
  let ht ← pyGetD team_info "home_team" (pdict [])
  let home_team_id ← pyGetD ht "id" pnone
  let enhanced ← if pyTruthy home_team_id then
      match homeOutcome with
      | .ok detailed =>
          pySetItem2 enhanced (pstr "enhanced_data") (pstr "home_team_detailed") detailed
      | .error e =>
          pySetItem2 enhanced (pstr "enhanced_data") (pstr "home_team_detailed") (errDict e)
    else pure enhanced
  let at_ ← pyGetD team_info "away_team" (pdict [])
  let away_team_id ← pyGetD at_ "id" pnone
  let enhanced ← if pyTruthy away_team_id then
      match awayOutcome with
      | .ok detailed =>
          pySetItem2 enhanced (pstr "enhanced_data") (pstr "away_team_detailed") detailed
      | .error e =>
          pySetItem2 enhanced (pstr "enhanced_data") (pstr "away_team_detailed") (errDict e)
    else pure enhanced
  return enhanced

/-- `AgentPipeline.collect_enhanced_team_data` with its `try/except`. -/
def collect_enhanced_team_data (homeOutcome awayOutcome : Except String PyVal)
    (team_info : PyVal) : PyVal :=
  match collect_enhanced_team_data_body homeOutcome awayOutcome team_info with
  | .ok v => v
  | .error e => errDict ("Failed to collect enhanced team data: " ++ e)

/-- One iteration of the key-player loop (pipeline.py lines 685-701):
the inner `try` around the `collect_player_data` call turns its exception
into an `{"error": ...}` `detailed_data` entry on a copy of the player. -/
def key_player_step (acc : List PyVal) (player : PyVal) :
    Except String (List PyVal) := do
  let player_id ← pyGetD player "id" pnone
  if pyTruthy player_id then
    match collect_player_data_call (pyStr player_id) with
    | .ok detailed => do
        let ep ← pyCopyMethod player
        let ep ← pySetItem ep (pstr "detailed_data") detailed
        pure (acc ++ [ep])
    | .error e => do
        let ep ← pyCopyMethod player
        let ep ← pySetItem ep (pstr "detailed_data") (errDict e)
        pure (acc ++ [ep])
  else pure acc

/-- One iteration of the sample-player loops (pipeline.py lines 713-738):
the inner `except` only logs, so a failed `collect_player_data` call
appends nothing. -/
def sample_player_step (sample : List PyVal) (player : PyVal) :
    Except String (List PyVal) := do
  let player_id ← pyGetD player "id" pnone
  if pyTruthy player_id then
    match collect_player_data_call (pyStr player_id) with
    | .ok detailed => do
        let sp ← pyCopyMethod player
        let sp ← pySetItem sp (pstr "detailed_data") detailed
        pure (sample ++ [sp])
    | .error _ => pure sample
  else pure sample

/-- The `try` body of `AgentPipeline.collect_enhanced_player_data`.
Every `collect_player_data` call goes through `collect_player_data_call`
and therefore raises; the per-key-player inner `except` turns that into a
`{"error": ...}` `detailed_data` entry, while the sample-player loops
catch, log and append nothing. -/
def collect_enhanced_player_data_body (player_info : PyVal) : Except String PyVal := do
  let enhanced : PyVal := pdict [
    (pstr "home_players", ← pyGetD player_info "home_players" (pdict [])),
    (pstr "away_players", ← pyGetD player_info "away_players" (pdict [])),
    (pstr "all_players", ← pyGetD player_info "all_players" (pdict [])),
    (pstr "key_players", ← pyGetD player_info "key_players" (plist [])),
    (pstr "enhanced_data", pdict [])]
  let key_players ← pyGetD player_info "key_players" (plist [])
  let sliced ← pySliceTo key_players 5
  let kpList ← pyIter sliced
  let enhanced_key_players ← kpList.foldlM key_player_step ([] : List PyVal)
  let enhanced ← pySetItem enhanced (pstr "enhanced_key_players") (plist enhanced_key_players)
  let hp ← pyGetD player_info "home_players" (pdict [])
  let home_players ← pyValues hp
  let sample1 ← (home_players.take 2).foldlM sample_player_step ([] : List PyVal)
  let ap ← pyGetD player_info "away_players" (pdict [])
  let away_players ← pyValues ap
  let sample2 ← (away_players.take 2).foldlM sample_player_step sample1
  let enhanced ← pySetItem enhanced (pstr "sample_players_detailed") (plist sample2)
  return enhanced

/-- `AgentPipeline.collect_enhanced_player_data` with its `try/except`. -/
def collect_enhanced_player_data (player_info : PyVal) : PyVal :=
  match collect_enhanced_player_data_body player_info with
  | .ok v => v
  | .error e => errDict ("Failed to collect enhanced player data: " ++ e)

/-!
Research Agent (`ai-backend/scriber_agents/researcher.py`).

`analyze_game_data` (lines 357-393) and `generate_storylines`
(lines 395-431) delegate to `Runner.run` on a worker agent; the outcome of
that call (including `final_output_as` coercion) is modelled as an
`Except` parameter.  The `except` clause of each method replaces any
exception with a fixed fallback value.
-/

/-- The `GameAnalysis` pydantic model of researcher.py. -/
structure GameAnalysis : Type where
  fixture_summary : PyVal
  key_events : List PyVal
  storylines : List String
  match_highlights : List String
deriving Repr

/-- The fixed fallback `GameAnalysis` built in the `except` clause of
`ResearchAgent.analyze_game_data`. -/
def fallback_game_analysis : GameAnalysis :=
  { fixture_summary := pdict []
    key_events := []
    storylines := ["Exciting match with plenty of action",
                   "Key players making the difference"]
    match_highlights := ["Dramatic finish",
                         "Outstanding individual performances"] }

/-- `ResearchAgent.analyze_game_data`: returns the output of the delegated
agent, or the fixed fallback analysis when the delegated call raised. -/
def analyze_game_data (game_data : PyVal)
    (runOutcome : Except String GameAnalysis) : GameAnalysis :=
  match runOutcome with
  | .ok ga => ga
  | .error _ => fallback_game_analysis

/-- The fixed filler storylines built in the `except` clause of
`ResearchAgent.generate_storylines`. -/
def fallback_storylines : List String :=
  ["Exciting match with plenty of action",
   "Key players making the difference",
   "Tactical battle between managers"]

/-- `ResearchAgent.generate_storylines`: at most the first five storylines
of the output of the delegated agent, or the fixed filler list when the
delegated call raised. -/
def generate_storylines (data_list : List PyVal)
    (runOutcome : Except String (List String)) : List String :=
  match runOutcome with
  | .ok ss => ss.take 5
  | .error _ => fallback_storylines

/-!
Writer Agent (`ai-backend/scriber_agents/writer.py`).

`generate_game_recap` builds the prompt (outside its `try`), delegates to
the chat-completion client (modelled as an outcome parameter carrying the
stripped message content), and on any generation exception returns the
article assembled by `_generate_fallback_article`.
-/

/-- Python `str.title()`: first letter of every alphabetic run uppercased,
the rest lowercased. -/
def titleCase (s : String) : String :=
  String.mk (((s.toList.foldl (fun (st : Bool × List Char) c =>
    let isA := c.isAlpha
    let c' := if isA then (if st.1 then c.toLower else c.toUpper) else c
    (isA, c' :: st.2)) (false, [])).2).reverse)

/-- `WritingAgent._format_data_summary` (writer.py lines 33-66). -/
def format_data_summary (data : PyVal) : Except String String := do
  let getv ← pyGetD data "get" pnone
  let summary_parts ←
    if pyEq getv (pstr "game_data") then do
      let resp ← pyGetD data "response" (plist [pdict []])
      let r0 ← pySub0 resp
      let fixture_data ← pyGetD r0 "fixture" (pdict [])
      if pyTruthy fixture_data then do
        let fixture_response ← pyGetD fixture_data "response" (plist [])
        if pyTruthy fixture_response then do
          let fixture ← pySub0 fixture_response
          let teams ← pyGetD fixture "teams" (pdict [])
          let goals ← pyGetD fixture "goals" (pdict [])
          let th ← pyGetD teams "home" (pdict [])
          let ta ← pyGetD teams "away" (pdict [])
          let fx1 ← pyGetD fixture "fixture" (pdict [])
          let fx2 ← pyGetD fixture "fixture" (pdict [])
          let venue ← pyGetD fx2 "venue" (pdict [])
          pure ["Match: " ++ pyStr (← pyGetD th "name" (pstr "Home")) ++ " vs " ++
                  pyStr (← pyGetD ta "name" (pstr "Away")),
                "Score: " ++ pyStr (← pyGetD goals "home" (pint 0)) ++ " - " ++
                  pyStr (← pyGetD goals "away" (pint 0)),
                "Date: " ++ pyStr (← pyGetD fx1 "date" (pstr "Unknown")),
                "Venue: " ++ pyStr (← pyGetD venue "name" (pstr "Unknown"))]
        else pure []
      else pure []
    else if pyEq getv (pstr "team_data") then do
      let resp ← pyGetD data "response" (plist [pdict []])
      let r0 ← pySub0 resp
      let team_info ← pyGetD r0 "team_info" (pdict [])
      if pyTruthy team_info then do
        let team_response ← pyGetD team_info "response" (plist [])
        if pyTruthy team_response then do
          let team ← pySub0 team_response
          let t1 ← pyGetD team "team" (pdict [])
          let t2 ← pyGetD team "team" (pdict [])
          let t3 ← pyGetD team "team" (pdict [])
          pure ["Team: " ++ pyStr (← pyGetD t1 "name" (pstr "Unknown")),
                "Country: " ++ pyStr (← pyGetD t2 "country" (pstr "Unknown")),
                "Founded: " ++ pyStr (← pyGetD t3 "founded" (pstr "Unknown"))]
        else pure []
      else pure []
    else if pyEq getv (pstr "player_data") then do
      let resp ← pyGetD data "response" (plist [pdict []])
      let r0 ← pySub0 resp
      let player_info ← pyGetD r0 "player_info" (pdict [])
      if pyTruthy player_info then do
        let player_response ← pyGetD player_info "response" (plist [])
        if pyTruthy player_response then do
          let player ← pySub0 player_response
          let p1 ← pyGetD player "player" (pdict [])
          let p2 ← pyGetD player "player" (pdict [])
          let stats ← pyGetD player "statistics" (plist [pdict []])
          let s0 ← pySub0 stats
          let games ← pyGetD s0 "games" (pdict [])
          pure ["Player: " ++ pyStr (← pyGetD p1 "name" (pstr "Unknown")),
                "Age: " ++ pyStr (← pyGetD p2 "age" (pstr "Unknown")),
                "Position: " ++ pyStr (← pyGetD games "position" (pstr "Unknown"))]
        else pure []
      else pure []
    else pure []
  if summary_parts.isEmpty then
    return "No detailed data available"
  else
    return String.intercalate "\n" summary_parts

/-- `WritingAgent._create_prompt` (writer.py lines 28-31); `research_data`
is accepted but never used by the source template. -/
def create_prompt (article_type : String) (data research_data : PyVal)
    (storylines : List String) : Except String String := do
  let summary ← format_data_summary data
  return "You are a professional sports journalist writing for a major sports publication.\nGenerate an engaging " ++
    article_type ++
    " article based on the following data and storylines.\n\nKey Storylines:\n" ++
    String.intercalate "\n" (storylines.map (fun s => "- " ++ s)) ++
    "\n\nRaw Data Summary:\n" ++ summary ++
    "\n\nRequirements:\n- Write in an engaging, professional sports journalism style\n- Include specific details from the data provided\n- Incorporate the key storylines naturally\n- Use active voice and dynamic language\n- Include relevant statistics and facts\n- Target length: 800-1200 words\n- Include a compelling headline\n\nArticle:"

/-- `WritingAgent._generate_fallback_article` (writer.py lines 125-130):
pure template substitution over the data summary and the storylines. -/
def generate_fallback_article (article_type : String) (data : PyVal)
    (storylines : List String) : Except String String := do
  let data_summary ← format_data_summary data
  let storylines_text := String.intercalate "\n" (storylines.map (fun s => "- " ++ s))
  return "# " ++ titleCase article_type ++
    " Article\n\n## Match Summary\n" ++ data_summary ++
    "\n\n## Key Storylines\n" ++ storylines_text ++
    "\n\n## Article Content\nThis is a fallback article generated when AI services are unavailable. \nThe actual content would be generated using advanced AI models to create \nengaging, professional sports journalism content based on the provided data \nand storylines.\n\nPlease ensure AI services are properly configured for optimal article generation."

/-- `WritingAgent.generate_game_recap` (writer.py lines 68-85).
`llmOutcome` is the outcome of the chat-completion call: the stripped
message content on success, the exception otherwise.  The prompt is built
before the `try`, so a failure while summarising the data propagates; a
generation failure falls back to `_generate_fallback_article`. -/
def writer_generate_game_recap (game_data research_data : PyVal)
    (storylines : List String) (llmOutcome : Except String String) :
    Except String String := do
  let _prompt ← create_prompt "game recap" game_data research_data storylines
  match llmOutcome with
  | .ok content => pure content
  | .error _ => generate_fallback_article "game recap" game_data storylines

/-- Number of words of an article, Python `len(article.split())`: the
number of maximal whitespace-free runs. -/
def word_count (s : String) : Nat :=
  (s.toList.foldl (fun (st : Nat × Bool) c =>
    if c.isWhitespace then (st.1, false)
    else if st.2 then st else (st.1 + 1, true)) (0, false)).1

/-- Substring containment test. -/
def containsSub (hay needle : String) : Bool :=
  hay.toList.tails.any (fun t => needle.toList.isPrefixOf t)

/-- The template section markers of the article template of the Writer. -/
def section_markers : List String :=
  ["Headline", "Introduction", "Body", "Conclusion"]

/-- Whether the article contains at least one template section marker. -/
def has_section_marker (article : String) : Bool :=
  section_markers.any (fun m => containsSub article m)

/-- Modelled from the spec: the post-generation `_validate_article` check
of the Writer Agent is absent from the sources under `src/` (no
revision there defines it); following the spec, the revision that enforces
the bound requires a word count of 400-600 and at least one of the
Headline/Introduction/Body/Conclusion section markers, and raises a
validation error otherwise. -/
def validate_article (article : String) : Except String Unit :=
  if word_count article < 400 || 600 < word_count article then
    .error "Article word count outside the 400-600 range"
  else if !has_section_marker article then
    .error "Article is missing every template section marker"
  else
    .ok ()

/-!
Pipeline orchestrator (`ai-backend/scriber_agents/pipeline.py`,
`AgentPipeline.generate_game_recap`, lines 61-364).

The stages that leave the process are modelled by a `PipelineEnv` of
outcomes.  `format_manager.prepare_data_for_researcher` and the researcher
methods catch internally and never raise, so they contribute plain values;
`collect_game_data` is re-raised by `_collect_game_data` (lines 366-375),
so it contributes an `Except`.  Step 3.1 calls
`self.researcher.get_history_from_team_data`, a method that
`ResearchAgent` (scriber_agents/researcher.py) does not define, so every
run that reaches step 3.1 raises `AttributeError` there; the statements
after line 189 are unreachable and the body ends at that raise.
-/

/-- Outcomes of the external calls made by the pipeline. -/
structure PipelineEnv : Type where
  collectOutcome : Except String PyVal
  homeTeamOutcome : Except String PyVal
  awayTeamOutcome : Except String PyVal
  prepResearchResult : PyVal
  researchRunOutcome : Except String GameAnalysis

/-- Exception text of the `AttributeError` raised at pipeline.py line 189. -/
def missing_history_method_msg : String :=
  "AttributeError: ResearchAgent object has no attribute get_history_from_team_data"

/-- The `try` body of `AgentPipeline.generate_game_recap` (logging-only
statements, which read already-validated data, are omitted). -/
def generate_game_recap_body (game_id : String) (env : PipelineEnv) :
    Except String PyVal := do
  let raw ← env.collectOutcome
  if !pyTruthy raw then
    throw ("Failed to collect data for game " ++ game_id)
  let team_info := extract_team_info raw
  let player_info := extract_player_info raw
  let enhanced_team :=
    collect_enhanced_team_data env.homeTeamOutcome env.awayTeamOutcome team_info
  let enhanced_player := collect_enhanced_player_data player_info
  let formatted0 := env.prepResearchResult
  let formatted ←
    match formatted0 with
    | pdict xs =>
        if (dictLookup xs (pstr "error")).isSome then pure formatted0
        else do
          let f1 ← pySetItem formatted0 (pstr "team_info") enhanced_team
          pySetItem f1 (pstr "player_info") enhanced_player
    | _ => pure formatted0
  let _research := analyze_game_data formatted env.researchRunOutcome
  throw missing_history_method_msg

/-- The structured failure result built by the `except` clause of
`AgentPipeline.generate_game_recap` (lines 344-364); `generated_at` and
`dur` stand for the wall-clock values. -/
def pipelineFailureDict (game_id err generated_at : String) (dur : PyVal)
    (model : String) : PyVal :=
  pdict [
    (pstr "success", pbool false),
    (pstr "game_id", pstr game_id),
    (pstr "error", pstr err),
    (pstr "research_data", pdict [
      (pstr "game_analysis", pnone),
      (pstr "historical_context", pnone),
      (pstr "player_performance", pnone),
      (pstr "storylines", plist []),
      (pstr "team_info", pnone),
      (pstr "player_info", pnone)]),
    (pstr "metadata", pdict [
      (pstr "generated_at", pstr generated_at),
      (pstr "pipeline_duration", dur),
      (pstr "data_sources", plist [pstr "rapidapi_football"]),
      (pstr "model_used", pstr model),
      (pstr "error_occurred", pbool true),
      (pstr "error_step", pstr "pipeline_execution")])]

/-- `AgentPipeline.generate_game_recap`: the body under `try`, with
`except Exception` returning the structured failure dictionary. -/
def pipeline_generate_game_recap (game_id : String) (env : PipelineEnv)
    (generated_at : String) (dur : PyVal) (model : String) : PyVal :=
  match generate_game_recap_body game_id env with
  | .ok v => v
  | .error e => pipelineFailureDict game_id e generated_at dur model

/-!
HTTP service layer (`ai-backend/main.py`).

`AgentOrchestrator.generate_article` (lines 80-118) validates the request,
runs the agents and wraps *any* exception — `HTTPException` included,
since `HTTPException` subclasses `Exception` — into a new
`HTTPException(500)`.  The `/generate-article` endpoint (lines 253-261)
first rejects requests when the global orchestrator is not initialised
(503); requests missing the required `game_id` field never reach the
handler, being rejected by the FastAPI request-model validation (422).
The `agents/data_collector.py` `DataCollectorAgent` used by the orchestrator
defines no `collect_game_data` method, so the collection stage raises
`AttributeError` for every non-empty game id.
-/

/-- A Python exception as the service layer distinguishes them:
a FastAPI `HTTPException` with a status code, or any other exception. -/
inductive PyExc : Type where
  | httpExc (status : Nat) (detail : String)
  | otherExc (msg : String)
deriving Repr

/-- Python `str(e)` for the exceptions above (starlette renders an
`HTTPException` as `"{status_code}: {detail}"`). -/
def pyExcStr : PyExc → String
  | .httpExc s d => toString s ++ ": " ++ d
  | .otherExc m => m

/-- The `try` body of `AgentOrchestrator.generate_article`. -/
def orchestrator_generate_article_body (game_id : String) : Except PyExc Unit :=
  if game_id = "" then
    .error (.httpExc 400 "Game ID is required")
  else
    .error (.otherExc
      "AttributeError: DataCollectorAgent object has no attribute collect_game_data")

/-- `AgentOrchestrator.generate_article`: the body with its
`except Exception` clause, which re-raises every failure — including the 400 raised by
the handler itself — as `HTTPException(500)`. -/
def orchestrator_generate_article (game_id : String) : Except PyExc Unit :=
  match orchestrator_generate_article_body game_id with
  | .ok v => .ok v
  | .error e =>
      .error (.httpExc 500 ("Failed to generate article: " ++ pyExcStr e))

/-- HTTP status answered by `POST /generate-article` for a request whose
`game_id` field is `gameIdField` (`none` = field missing) when the global
orchestrator is (not) ready. -/
def generate_article_status (ready : Bool) (gameIdField : Option String) : Nat :=
  match gameIdField with
  | none => 422
  | some gid =>
      if !ready then 503
      else
        match orchestrator_generate_article gid with
        | .ok _ => 200
        | .error (.httpExc s _) => s
        | .error (.otherExc _) => 500

/-!
Helper lemmas for reasoning about the `Except` embedding.
-/

theorem except_bind_ok {α β : Type} (x : Except String α) (f : α → Except String β)
    (b : β) : x >>= f = .ok b ↔ ∃ a, x = .ok a ∧ f a = .ok b := by
  cases x <;> simp [Bind.bind, Except.bind]

/-!
Claim theorems.
-/

/-- Claim C3, counterexample.  The claim asserts that on a non-200 HTTP
status the adapter returns an envelope with a non-empty `errors` list and
`response == []`.  In the source the tool never inspects the status code:
for a 404 transport response the decoded body is returned verbatim — here
the serialisation of an envelope whose `errors` list is empty and whose
`response` list is non-empty. -/
def c3_envelope : PyVal :=
  pdict [
    (pstr "get", pstr "fixtures"),
    (pstr "parameters", pdict [(pstr "id", pstr "215662")]),
    (pstr "errors", plist []),
    (pstr "results", pint 1),
    (pstr "paging", pdict [(pstr "current", pint 1), (pstr "total", pint 1)]),
    (pstr "response", plist [pdict [(pstr "fixture", pdict [(pstr "id", pint 215662)])]])]

/-- Claim C3 is false on the code: a non-200 (404) transport response is
returned verbatim, so the caller reads an envelope whose `errors` list is
empty and whose `response` list is non-empty. -/
theorem c3_counterexample :
    get_game_data (some "key") (Transport.response 404 (pyToJson c3_envelope)) =
      pyToJson c3_envelope ∧
    pyGetD c3_envelope "errors" pnone = .ok (plist []) ∧
    pyGetD c3_envelope "response" pnone ≠ .ok (plist []) ∧
    404 ≠ 200 := by
  refine ⟨rfl, rfl, ?_, by decide⟩
  intro h
  simp [pyGetD, pyGet, c3_envelope, dictLookup, pyEq] at h

/-- Claim C3, amended: the adapter tools never raise — the whole body runs
under `try`, and a missing API key, a transport failure, or any other
exception is returned as a plain `"Error fetching ..."` string, not as an
envelope; the HTTP status code is never inspected, and the decoded body of
any HTTP response (any status) is returned unchanged. -/
theorem c3_amended :
    (∀ t : Transport,
      get_game_data none t = fetchErrString "game" "RAPIDAPI_KEY not found.") ∧
    (∀ k m : String, get_game_data (some k) (.failed m) =
      if k = "" then fetchErrString "game" "RAPIDAPI_KEY not found."
      else fetchErrString "game" m) ∧
    (∀ (k body : String) (st : Nat), get_game_data (some k) (.response st body) =
      if k = "" then fetchErrString "game" "RAPIDAPI_KEY not found." else body) ∧
    (∀ t : Transport,
      get_team_data none t = fetchErrString "team" "RAPID_API_KEY not found.") ∧
    (∀ k m : String, get_team_data (some k) (.failed m) =
      if k = "" then fetchErrString "team" "RAPID_API_KEY not found."
      else fetchErrString "team" m) ∧
    (∀ (k body : String) (st : Nat), get_team_data (some k) (.response st body) =
      if k = "" then fetchErrString "team" "RAPID_API_KEY not found." else body) := by
  refine ⟨fun t => rfl, fun k m => ?_, fun k body st => ?_,
          fun t => rfl, fun k m => ?_, fun k body st => ?_⟩ <;>
    by_cases h : k = "" <;> simp [get_game_data, get_team_data, h]

/-- Claim C2 is false on the code: `collect_game_data` re-raises — when the
delegated runner call raises, the exception propagates to the caller. -/
theorem c2_counterexample :
    collect_game_data (fun _ => .error "json parse failed")
      (RunnerResult.raised "RunnerError: agent call failed") =
      .error "RunnerError: agent call failed" := rfl

/-- Claim C2, amended: `DataCollectorAgent.collect_game_data` does not
swallow failures and builds no aggregate envelope.  Its `except` clause
re-raises, so a raised runner call, an empty `final_output` and a JSON
parse failure all propagate as exceptions; a successful structured output
is returned as-is, with no top-level `errors: []` / `results: 1` wrapper
added.  (Only the HTTP tool functions themselves catch, returning error
strings — see the C3 theorems.) -/
theorem c2_amended :
    (∀ (jl : String → Except String PyVal) (m : String),
      collect_game_data jl (.raised m) = .error m) ∧
    (∀ (jl : String → Except String PyVal) (out : PyVal), pyTruthy out = false →
      collect_game_data jl (.finished out) =
        .error "ValueError: No game data received from collector") ∧
    (∀ (jl : String → Except String PyVal) (s : String), s ≠ "" →
      collect_game_data jl (.finished (pstr s)) = jl s) ∧
    (∀ (jl : String → Except String PyVal) (xs : List (PyVal × PyVal)), xs ≠ [] →
      collect_game_data jl (.finished (pdict xs)) = .ok (pdict xs)) := by
  refine ⟨fun jl m => rfl, fun jl out h => ?_, fun jl s h => ?_, fun jl xs h => ?_⟩
  · simp [collect_game_data, h]
  · simp [collect_game_data, pyTruthy, h]
  · simp [collect_game_data, pyTruthy, h]

/-- Claim C2 witness: the amended behaviour at concrete inputs. -/
theorem c2_witness :
    collect_game_data (fun s => .ok (pstr s)) (.finished (pstr "envelope")) =
      .ok (pstr "envelope") ∧
    collect_game_data (fun _ => .error "unused") (.finished pnone) =
      .error "ValueError: No game data received from collector" :=
  ⟨c2_amended.2.2.1 (fun s => .ok (pstr s)) "envelope" (by decide),
   c2_amended.2.1 (fun _ => .error "unused") pnone rfl⟩

/-- Claim C5: `extract_team_info` and `extract_player_info` are pure:
their result depends only on the value of the input record (it is
invariant under deep-copying the input), so repeated calls on the same
record return identical outputs; and under the value semantics of the
embedding the input record is returned to the caller unchanged
(`pyDeepCopy raw = raw` exhibits the record after a call as the very value
passed in — the bodies only read `raw`, every constructed dictionary being
fresh). -/
theorem c5_extract_pure :
    ∀ raw : PyVal,
      extract_team_info (pyDeepCopy raw) = extract_team_info raw ∧
      extract_player_info (pyDeepCopy raw) = extract_player_info raw ∧
      pyDeepCopy raw = raw := by
  intro raw
  rw [pyDeepCopy_id]
  exact ⟨rfl, rfl, rfl⟩

/-- Claim C6: when the delegated text-generation call inside
`ResearchAgent.analyze_game_data` / `ResearchAgent.generate_storylines`
raises, the method returns the fixed fallback value — independent of the
input and of the exception — and no exception or failure indication
reaches the caller (the return value is an ordinary analysis/storyline
value, not an error marker). -/
theorem c6_researcher_fallback :
    (∀ (gd gd' : PyVal) (e e' : String),
      analyze_game_data gd (.error e) = fallback_game_analysis ∧
      analyze_game_data gd (.error e) = analyze_game_data gd' (.error e')) ∧
    (∀ (dl dl' : List PyVal) (e e' : String),
      generate_storylines dl (.error e) = fallback_storylines ∧
      generate_storylines dl (.error e) = generate_storylines dl' (.error e')) ∧
    fallback_game_analysis.storylines =
      ["Exciting match with plenty of action",
       "Key players making the difference"] ∧
    fallback_storylines =
      ["Exciting match with plenty of action",
       "Key players making the difference",
       "Tactical battle between managers"] :=
  ⟨fun _ _ _ _ => ⟨rfl, rfl⟩, fun _ _ _ _ => ⟨rfl, rfl⟩, rfl, rfl⟩

/-- Claim C7: when the chat-completion call inside
`WritingAgent.generate_game_recap` raises, the method returns the fallback
article assembled by `_generate_fallback_article` from the data summary
and the storylines; the fallback is a deterministic function of
`(data, storylines)` — in particular it does not depend on the research
data or on which exception was raised. -/
theorem c7_writer_fallback :
    ∀ (data research research' : PyVal) (st : List String) (e e' : String),
      writer_generate_game_recap data research st (.error e) =
        generate_fallback_article "game recap" data st ∧
      writer_generate_game_recap data research st (.error e) =
        writer_generate_game_recap data research' st (.error e') := by
  intro data research research' st e e'
  cases h : format_data_summary data <;>
    simp [writer_generate_game_recap, create_prompt, generate_fallback_article,
          Bind.bind, Except.bind, Pure.pure, Except.pure, h]

/-- Claim C9 is false on the code: with the orchestrator ready, a request
with an empty `game_id` is answered with HTTP 500, not 400 — the handler
raises `HTTPException(400)`, but its own `except Exception` clause catches
it (an `HTTPException` is an `Exception`) and re-raises it as a 500. -/
theorem c9_counterexample :
    generate_article_status true (some "") = 500 ∧ (500 : Nat) ≠ 400 :=
  ⟨rfl, by decide⟩

/-- Claim C9, amended: an uninitialised orchestrator answers 503 and a
request missing the `game_id` field is rejected by request-model
validation with 422; every request that reaches the handler is answered
500 — an empty `game_id` because the 400 raised in the handler is swallowed by its
broad `except` and re-raised as 500 (with the original `400: Game ID is
required` text inside the detail), and a non-empty one because the
generation stage fails. -/
theorem c9_amended :
    (∀ g : String, generate_article_status false (some g) = 503) ∧
    (∀ r : Bool, generate_article_status r none = 422) ∧
    (∀ g : String, generate_article_status true (some g) = 500) ∧
    orchestrator_generate_article "" =
      .error (.httpExc 500 "Failed to generate article: 400: Game ID is required") := by
  refine ⟨fun g => rfl, fun r => ?_, fun g => ?_, rfl⟩
  · cases r <;> rfl
  · by_cases h : g = "" <;>
      simp [generate_article_status, orchestrator_generate_article,
            orchestrator_generate_article_body, h]

/-- Claim C4: for every input record whose `response` entry is absent or an
empty list, both extraction helpers return the `{"error": "No response
data available"}` map; and for every input whatsoever the call observed by
the caller is a normal return (`.ok`) — the `try/except Exception` wrapper
lets no exception escape. -/
theorem c4_extract_error_map :
    (∀ xs : List (PyVal × PyVal),
      (dictLookup xs (pstr "response") = none ∨
       dictLookup xs (pstr "response") = some (plist [])) →
      extract_team_info (pdict xs) = errDict "No response data available" ∧
      extract_player_info (pdict xs) = errDict "No response data available") ∧
    (∀ raw : PyVal,
      (∃ v, extract_team_info_except raw = .ok v) ∧
      (∃ v, extract_player_info_except raw = .ok v)) := by
  constructor
  · intro xs h
    have hresp : (dictLookup xs (pstr "response")).getD (plist []) = plist [] := by
      rcases h with h | h <;> simp [h]
    constructor <;>
      simp [extract_team_info, extract_team_info_except, extract_team_info_body,
            extract_player_info, extract_player_info_except, extract_player_info_body,
            pyGetD, pyGet, hresp, pyTruthy,
            Bind.bind, Except.bind, Pure.pure, Except.pure]
  · intro raw
    constructor
    · cases h : extract_team_info_body raw with
      | ok v => exact ⟨v, by simp [extract_team_info_except, h]⟩
      | error e =>
          exact ⟨errDict ("Failed to extract team info: " ++ e),
                 by simp [extract_team_info_except, h]⟩
    · cases h : extract_player_info_body raw with
      | ok v => exact ⟨v, by simp [extract_player_info_except, h]⟩
      | error e =>
          exact ⟨errDict ("Failed to extract player info: " ++ e),
                 by simp [extract_player_info_except, h]⟩

/-- Claim C4 witness: concrete records with a missing and with an empty
`response` entry. -/
theorem c4_witness :
    extract_team_info (pdict []) = errDict "No response data available" ∧
    extract_player_info (pdict [(pstr "response", plist [])]) =
      errDict "No response data available" :=
  ⟨(c4_extract_error_map.1 [] (Or.inl rfl)).1,
   (c4_extract_error_map.1 [(pstr "response", plist [])] (Or.inr rfl)).2⟩

/-- Claim C8 (spec-modelled `_validate_article`): an article whose word
count lies outside 400-600 is rejected with the word-count validation
error, and an article containing none of the section markers is rejected
with a validation error. -/
theorem c8_validate_rejects :
    ∀ article : String,
      ((word_count article < 400 ∨ 600 < word_count article) →
        validate_article article =
          .error "Article word count outside the 400-600 range") ∧
      (has_section_marker article = false →
        ∃ m, validate_article article = .error m) := by
  intro article
  constructor
  · intro h
    simp [validate_article, h]
  · intro h
    by_cases hw : word_count article < 400 ∨ 600 < word_count article
    · exact ⟨"Article word count outside the 400-600 range",
             by simp [validate_article, hw]⟩
    · exact ⟨"Article is missing every template section marker",
             by simp [validate_article, hw, h]⟩

/-- A 350-word article (the word-count test case of the spec). -/
def article_350 : String :=
  String.intercalate " " (List.replicate 350 "goal")

set_option maxRecDepth 16384 in
/-- Claim C8 witness: the 350-word article is rejected by the word-count
check, and a marker-free article is rejected. -/
theorem c8_witness :
    validate_article article_350 =
      .error "Article word count outside the 400-600 range" ∧
    (∃ m, validate_article "the final whistle" = .error m) :=
  ⟨(c8_validate_rejects article_350).1 (Or.inl (by decide)),
   (c8_validate_rejects "the final whistle").2 rfl⟩

/-- Claim C1: whenever any stage inside
`AgentPipeline.generate_game_recap` raises, the pipeline-level
`except Exception` returns the structured failure dictionary — with
`success` equal to `False`, the same `game_id`, the exception text under
`error`, and a metadata map whose `error_occurred` is `True` — instead of
propagating the exception. -/
theorem c1_pipeline_failure :
    ∀ (game_id : String) (env : PipelineEnv) (generated_at : String)
      (dur : PyVal) (model : String) (e : String),
      generate_game_recap_body game_id env = .error e →
      pipeline_generate_game_recap game_id env generated_at dur model =
        pipelineFailureDict game_id e generated_at dur model ∧
      pySubscript (pipelineFailureDict game_id e generated_at dur model)
        (pstr "success") = .ok (pbool false) ∧
      pySubscript (pipelineFailureDict game_id e generated_at dur model)
        (pstr "game_id") = .ok (pstr game_id) ∧
      pySubscript (pipelineFailureDict game_id e generated_at dur model)
        (pstr "error") = .ok (pstr e) ∧
      (pySubscript (pipelineFailureDict game_id e generated_at dur model)
          (pstr "metadata") >>= fun md => pySubscript md (pstr "error_occurred")) =
        .ok (pbool true) := by
  intro game_id env generated_at dur model e h
  exact ⟨by simp [pipeline_generate_game_recap, h], rfl, rfl, rfl, rfl⟩

/-- A concrete environment whose data-collection stage raises. -/
def c1_env : PipelineEnv :=
  { collectOutcome := .error "RunnerError: connection reset"
    homeTeamOutcome := .ok pnone
    awayTeamOutcome := .ok pnone
    prepResearchResult := pnone
    researchRunOutcome := .error "agent failed" }

/-- Claim C1 witness: a failing collection stage at a concrete game id
yields exactly the structured failure dictionary. -/
theorem c1_witness :
    pipeline_generate_game_recap "215662" c1_env "2024-01-01T00:00:00" (pint 1)
      "gpt-4" =
      pipelineFailureDict "215662" "RunnerError: connection reset"
        "2024-01-01T00:00:00" (pint 1) "gpt-4" :=
  (c1_pipeline_failure "215662" c1_env "2024-01-01T00:00:00" (pint 1) "gpt-4"
    "RunnerError: connection reset" rfl).1

/-- The `enhanced_key_players` list of an enhanced-player-data result
(empty when the key is absent or not a list). -/
def enhanced_key_players_of (result : PyVal) : List PyVal :=
  match result with
  | pdict xs =>
      match dictLookup xs (pstr "enhanced_key_players") with
      | some (plist es) => es
      | _ => []
  | _ => []

/-- The `sample_players_detailed` list of an enhanced-player-data result
(empty when the key is absent or not a list). -/
def sample_players_of (result : PyVal) : List PyVal :=
  match result with
  | pdict xs =>
      match dictLookup xs (pstr "sample_players_detailed") with
      | some (plist es) => es
      | _ => []
  | _ => []

/-- Whether an enhanced key-player entry carries the
`{"error": <missing-season TypeError text>}` map as its `detailed_data`. -/
def has_error_detailed (ep : PyVal) : Bool :=
  match ep with
  | pdict xs =>
      match dictLookup xs (pstr "detailed_data") with
      | some v => pyBeq v (errDict missing_season_msg)
      | none => false
  | _ => false

theorem sample_player_step_ok (s : List PyVal) (x : PyVal) (r : List PyVal)
    (h : sample_player_step s x = .ok r) : r = s := by
  cases hg : pyGetD x "id" pnone with
  | error e => simp [sample_player_step, hg, Bind.bind, Except.bind] at h
  | ok pid =>
      by_cases ht : pyTruthy pid = true <;>
        simp [sample_player_step, hg, ht, collect_player_data_call,
              Bind.bind, Except.bind, Pure.pure, Except.pure] at h <;>
        exact h.symm

theorem sample_player_fold_ok (l : List PyVal) : ∀ s r : List PyVal,
    l.foldlM sample_player_step s = .ok r → r = s := by
  induction l with
  | nil =>
      intro s r h
      simp [List.foldlM, Pure.pure, Except.pure] at h
      exact h.symm
  | cons x xs ih =>
      intro s r h
      rw [List.foldlM_cons] at h
      rcases (except_bind_ok _ _ _).mp h with ⟨s', hx, hrest⟩
      rw [sample_player_step_ok s x s' hx] at hrest
      exact ih s r hrest

theorem key_player_step_all (acc : List PyVal) (x : PyVal) (r : List PyVal)
    (h : key_player_step acc x = .ok r)
    (hacc : acc.all has_error_detailed = true) :
    r.all has_error_detailed = true := by
  cases hg : pyGetD x "id" pnone with
  | error e => simp [key_player_step, hg, Bind.bind, Except.bind] at h
  | ok pid =>
      by_cases ht : pyTruthy pid = true
      · cases x with
        | pdict xs =>
            simp [key_player_step, hg, ht, collect_player_data_call,
                  pyCopyMethod, pySetItem, pyHashable,
                  Bind.bind, Except.bind, Pure.pure, Except.pure] at h
            rw [← h]
            rw [List.all_append, hacc]
            simp [has_error_detailed,
                  dictLookup_assign_self xs (pstr "detailed_data")
                    (errDict missing_season_msg) rfl]
            rfl
        | pnone =>
            simp [key_player_step, hg, ht, collect_player_data_call,
                  pyCopyMethod, Bind.bind, Except.bind] at h
        | pbool b =>
            simp [key_player_step, hg, ht, collect_player_data_call,
                  pyCopyMethod, Bind.bind, Except.bind] at h
        | pint n =>
            simp [key_player_step, hg, ht, collect_player_data_call,
                  pyCopyMethod, Bind.bind, Except.bind] at h
        | pstr s =>
            simp [key_player_step, hg, ht, collect_player_data_call,
                  pyCopyMethod, Bind.bind, Except.bind] at h
        | plist ys =>
            simp [key_player_step, hg, ht, collect_player_data_call,
                  pyCopyMethod, Bind.bind, Except.bind] at h
      · simp [key_player_step, hg, ht, Bind.bind, Except.bind,
              Pure.pure, Except.pure] at h
        rw [← h]
        exact hacc

theorem key_player_fold_all (l : List PyVal) : ∀ acc r : List PyVal,
    l.foldlM key_player_step acc = .ok r →
    acc.all has_error_detailed = true →
    r.all has_error_detailed = true := by
  induction l with
  | nil =>
      intro acc r h hacc
      simp [List.foldlM, Pure.pure, Except.pure] at h
      rw [← h]
      exact hacc
  | cons x xs ih =>
      intro acc r h hacc
      rw [List.foldlM_cons] at h
      rcases (except_bind_ok _ _ _).mp h with ⟨acc', hx, hrest⟩
      exact ih acc' r hrest (key_player_step_all acc x acc' hx hacc)

/-- Claim C10: the `collect_player_data` calls in
`collect_enhanced_player_data` omit the required `season` argument, so
every such call raises `TypeError` before fetching anything; consequently
every entry of the returned `enhanced_key_players` list carries a
`detailed_data` equal to the `{"error": ...}` map for that `TypeError`,
and the returned `sample_players_detailed` list is empty — for every
input. -/
theorem c10_enhanced_player_data :
    ∀ player_info : PyVal,
      (∀ pid : String, collect_player_data_call pid = .error missing_season_msg) ∧
      (enhanced_key_players_of (collect_enhanced_player_data player_info)).all
        has_error_detailed = true ∧
      sample_players_of (collect_enhanced_player_data player_info) = [] := by
  intro player_info
  refine ⟨fun _ => rfl, ?_⟩
  cases hb : collect_enhanced_player_data_body player_info with
  | error e =>
      constructor <;>
        simp [collect_enhanced_player_data, hb, enhanced_key_players_of,
              sample_players_of, errDict, dictLookup, pyEq]
  | ok v =>
      have hv : collect_enhanced_player_data player_info = v := by
        simp [collect_enhanced_player_data, hb]
      rw [hv]
      simp only [collect_enhanced_player_data_body, Bind.bind] at hb
      rcases (except_bind_ok _ _ _).mp hb with ⟨a1, h1, hb⟩
      rcases (except_bind_ok _ _ _).mp hb with ⟨a2, h2, hb⟩
      rcases (except_bind_ok _ _ _).mp hb with ⟨a3, h3, hb⟩
      rcases (except_bind_ok _ _ _).mp hb with ⟨a4, h4, hb⟩
      rcases (except_bind_ok _ _ _).mp hb with ⟨kp, hkp, hb⟩
      rcases (except_bind_ok _ _ _).mp hb with ⟨sliced, hsl, hb⟩
      rcases (except_bind_ok _ _ _).mp hb with ⟨kpList, hkl, hb⟩
      rcases (except_bind_ok _ _ _).mp hb with ⟨ekp, hekp, hb⟩
      rcases (except_bind_ok _ _ _).mp hb with ⟨enh1, henh1, hb⟩
      rcases (except_bind_ok _ _ _).mp hb with ⟨hp, hhp, hb⟩
      rcases (except_bind_ok _ _ _).mp hb with ⟨hpv, hhpv, hb⟩
      rcases (except_bind_ok _ _ _).mp hb with ⟨s1, hs1, hb⟩
      rcases (except_bind_ok _ _ _).mp hb with ⟨ap, hap, hb⟩
      rcases (except_bind_ok _ _ _).mp hb with ⟨apv, hapv, hb⟩
      rcases (except_bind_ok _ _ _).mp hb with ⟨s2, hs2, hb⟩
      rcases (except_bind_ok _ _ _).mp hb with ⟨enh2, henh2, hb⟩
      simp [pySetItem, pyHashable] at henh1
      simp [Pure.pure, Except.pure] at hb
      rw [← henh1] at henh2
      simp [pySetItem, pyHashable] at henh2
      rw [← henh2] at hb
      rw [← hb]
      have hekp_all : ekp.all has_error_detailed = true :=
        key_player_fold_all kpList [] ekp hekp rfl
      have hs1_nil : s1 = [] := sample_player_fold_ok _ _ _ hs1
      have hs2_nil : s2 = [] := by
        rw [sample_player_fold_ok _ _ _ hs2, hs1_nil]
      constructor
      · simp only [enhanced_key_players_of]
        rw [dictLookup_assign_str_ne _ "sample_players_detailed"
              "enhanced_key_players" _ rfl,
            dictLookup_assign_self _ (pstr "enhanced_key_players")
              (plist ekp) rfl]
        exact hekp_all
      · simp only [sample_players_of]
        rw [dictLookup_assign_self _ (pstr "sample_players_detailed")
              (plist s2) rfl, hs2_nil]
